import Mathlib

/-!
Shallow embedding of `src/dist/index.js`, a minimal MCP tool server.
The process environment is modelled as a partial map `String → Option String`
(`none` = variable not present).  JavaScript truthiness of an environment
value (`!process.env[k]`) treats both `undefined` and the empty string as
falsy.  Tool-call arguments are JSON values; JavaScript template-literal
interpolation of a possibly-`undefined` value is modelled by `interpToString`.
-/

/-- JSON values, as they arrive in the `arguments` object of a decoded `call_tool` request. -/
inductive Json where
  | str (s : String)
  | num (n : Int)
  | bool (b : Bool)
  | null
  | arr (items : List Json)
  | obj (fields : List (String × Json))
deriving Repr

mutual

/-- JavaScript `String(v)` coercion, as performed by template-literal
interpolation and by property-key coercion: strings pass through, arrays
join their elements with commas (with `null` rendered empty), plain objects
render as `[object Object]`. -/
def Json.jsToString : Json → String
  | .str s => s
  | .num n => toString n
  | .bool b => Bool.rec "false" "true" b
  | .null => "null"
  | .arr items => Json.arrJoin items
  | .obj _ => "[object Object]"

/-- JavaScript `Array.prototype.join(",")` over JSON elements, where a
`null` element contributes the empty string. -/
def Json.arrJoin : List Json → String
  | [] => ""
  | [.null] => ""
  | [j] => Json.jsToString j
  | .null :: rest => "," ++ Json.arrJoin rest
  | j :: rest => Json.jsToString j ++ "," ++ Json.arrJoin rest

end

/-- Template-literal interpolation of a possibly-absent value:
JavaScript renders `undefined` as the string `"undefined"`. -/
def interpToString : Option Json → String
  | none => "undefined"
  | some j => j.jsToString

/-- One item of the `content` array of a tool result.  The server only ever
produces items with `type = "text"`. -/
structure ContentItem where
  type : String
  text : String
deriving DecidableEq, Repr

/-- The response envelope of a `call_tool` request.  In the source, success
results omit `isError`, which the protocol reads as `false`. -/
structure ToolCallResult where
  content : List ContentItem
  isError : Bool := false
deriving DecidableEq, Repr

/-- JavaScript truthiness of an environment lookup: `undefined` and the
empty string are falsy, every other string is truthy. -/
def truthy : Option String → Bool
  | none => false
  | some s => !(s == "")

/-- The required startup keys, `REQUIRED_ENV_VARS` in the source. -/
def REQUIRED_ENV_VARS : List String := ["API_KEY", "SERVER_NAME"]

/-- The `missing` list accumulated by `validateEnvironment`: required keys
whose environment value is falsy (absent or empty). -/
def missingVars (env : String → Option String) : List String :=
  REQUIRED_ENV_VARS.filter (fun v => !truthy (env v))

/-- Outcome of the startup gate: either the process exits with a status
code after printing a diagnostic naming the missing keys, or startup
proceeds (and the transport connection is established afterwards). -/
inductive StartupOutcome where
  | exited (code : Nat) (diagnosticMissing : List String)
  | proceeded
deriving DecidableEq, Repr

/-- `validateEnvironment` from the source: collects the falsy required
keys; if any, prints remediation guidance listing exactly those keys and
calls `process.exit(1)` (before `main` ever connects the transport),
otherwise logs a confirmation and returns. -/
def validateEnvironment (env : String → Option String) : StartupOutcome :=
  let missing := missingVars env
  if missing.isEmpty then .proceeded else .exited 1 missing

/-- Schema of a single property inside the input schema of a tool. -/
structure PropertySchema where
  type : String
  description : String
deriving DecidableEq, Repr

/-- The JSON-Schema-like `inputSchema` of a tool descriptor.  `required`
is `none` when the source object omits the field. -/
structure InputSchema where
  type : String
  properties : List (String × PropertySchema)
  required : Option (List String) := none
deriving DecidableEq, Repr

/-- One entry of the static tool registry. -/
structure ToolDescriptor where
  name : String
  description : String
  inputSchema : InputSchema
deriving DecidableEq, Repr

/-- The static registry `TOOLS` from the source, in source order. -/
def TOOLS : List ToolDescriptor :=
  [ { name := "echo",
      description := "返回输入的文本",
      inputSchema :=
        { type := "object",
          properties := [("message", { type := "string", description := "要返回的消息" })],
          required := some ["message"] } },
    { name := "get_time",
      description := "获取当前时间",
      inputSchema := { type := "object", properties := [] } },
    { name := "get_env",
      description := "获取环境变量的值",
      inputSchema :=
        { type := "object",
          properties := [("key", { type := "string", description := "环境变量的键名" })],
          required := some ["key"] } },
    { name := "get_config",
      description := "获取服务器配置信息（从环境变量读取）",
      inputSchema := { type := "object", properties := [] } } ]

/-- Response envelope of a `list_tools` request. -/
structure ListToolsResult where
  tools : List ToolDescriptor
deriving DecidableEq, Repr

/-- The `ListToolsRequestSchema` handler: returns the registry unchanged.
It reads no configuration and closes over nothing mutable. -/
def listToolsHandler : ListToolsResult :=
  { tools := TOOLS }

/-- JavaScript `a || d` over an environment lookup: the default is taken
when the value is absent or the empty string (falsy). -/
def orDefault (v : Option String) (d : String) : String :=
  match v with
  | none => d
  | some s => if s == "" then d else s

/-- The `config` object built by the `get_config` handler. -/
structure ServerConfig where
  serverName : String
  environment : String
  port : String
  apiKey : String
  customSetting : String
deriving DecidableEq, Repr

/-- The snapshot of the environment built by the `get_config` handler: four fields
default via `||` to the sentinel `"未设置"`, `environment` defaults to
`"development"`, and `apiKey` is only a presence indicator, never the raw
value. -/
def mkConfig (env : String → Option String) : ServerConfig :=
  { serverName := orDefault (env "SERVER_NAME") "未设置",
    environment := orDefault (env "NODE_ENV") "development",
    port := orDefault (env "PORT") "未设置",
    apiKey := if truthy (env "API_KEY") then "已设置 (***隐藏)" else "未设置",
    customSetting := orDefault (env "CUSTOM_SETTING") "未设置" }

/-- JSON string escaping of one character, as `JSON.stringify` performs it. -/
def jsonEscapeChar (c : Char) : String :=
  if c = '"' then "\\\""
  else if c = '\\' then "\\\\"
  else if c = '\x08' then "\\b"
  else if c = '\x09' then "\\t"
  else if c = '\x0a' then "\\n"
  else if c = '\x0c' then "\\f"
  else if c = '\x0d' then "\\r"
  else if c.toNat < 0x20 then
    "\\u00" ++ String.singleton (Nat.digitChar (c.toNat / 16)) ++
      String.singleton (Nat.digitChar (c.toNat % 16))
  else String.singleton c

/-- A JSON string literal for `s`, double-quoted and escaped. -/
def jsonQuote (s : String) : String :=
  "\"" ++ String.join (s.toList.map jsonEscapeChar) ++ "\""

/-- `JSON.stringify(config, null, 2)` for the five-field config object:
two-space indentation, fields in construction order. -/
def stringifyConfig (c : ServerConfig) : String :=
  "\x7b\n  \"serverName\": " ++ jsonQuote c.serverName ++
  ",\n  \"environment\": " ++ jsonQuote c.environment ++
  ",\n  \"port\": " ++ jsonQuote c.port ++
  ",\n  \"apiKey\": " ++ jsonQuote c.apiKey ++
  ",\n  \"customSetting\": " ++ jsonQuote c.customSetting ++ "\n\x7d"

/-- Lookup of `args?.k` in a `call_tool` request: `args` itself may be
absent (`undefined`), and so may the property. -/
def argLookup (args : Option (List (String × Json))) (k : String) : Option Json :=
  args.bind (fun fields => fields.lookup k)

/-- The body of the `try` block of the `CallToolRequestSchema` handler: the
`switch` on the tool name, in source order (the JavaScript `switch`
compares the scrutinee by strict equality case by case).  The `default`
branch throws `Error("未知工具: " + name)`, modelled as `Except.error`.
`now` stands for `new Date().toLocaleString("zh-CN", ...)`, the only
clock-dependent datum. -/
def callToolBody (env : String → Option String) (now : String)
    (name : String) (args : Option (List (String × Json))) :
    Except String ToolCallResult :=
  if name = "echo" then
    let message := argLookup args "message"
    .ok { content := [{ type := "text", text := "回显: " ++ interpToString message }] }
  else if name = "get_time" then
    .ok { content := [{ type := "text", text := "当前时间: " ++ now }] }
  else if name = "get_env" then
    let key := interpToString (argLookup args "key")
    match env key with
    | none =>
        .ok { content := [{ type := "text", text := "环境变量 " ++ key ++ " 未设置" }] }
    | some value =>
        .ok { content := [{ type := "text", text := key ++ " = " ++ value }] }
  else if name = "get_config" then
    .ok { content :=
      [{ type := "text", text := "服务器配置:\n" ++ stringifyConfig (mkConfig env) }] }
  else
    .error ("未知工具: " ++ name)

/-- The complete `CallToolRequestSchema` handler: the `try`/`catch`
boundary around `callToolBody`.  Any thrown error is converted into a
result with `isError := true` and a single text item `"错误: {message}"`;
no fault escapes to the transport layer. -/
def handleCallTool (env : String → Option String) (now : String)
    (name : String) (args : Option (List (String × Json))) : ToolCallResult :=
  match callToolBody env now name args with
  | .ok result => result
  | .error msg =>
      { content := [{ type := "text", text := "错误: " ++ msg }], isError := true }

/-- Every dispatcher response, success or error, consists of exactly one
content item of type `"text"`. -/
theorem handleCallTool_content_types (env : String → Option String) (now : String)
    (name : String) (args : Option (List (String × Json))) :
    (handleCallTool env now name args).content.map ContentItem.type = ["text"] := by
  unfold handleCallTool callToolBody
  split_ifs <;>
    first
      | rfl
      | (cases h : env (interpToString (argLookup args "key")) <;> simp [h])

/-- C1: every `call_tool` fault, including the unknown-tool throw for a
name outside `{echo, get_time, get_env, get_config}`, is caught at the
dispatcher boundary and converted into a `ToolCallResult` with
`isError := true` and a single text item naming the unknown tool; every
request yields a well-formed single-text-item response. -/
theorem call_tool_error_boundary (env : String → Option String) (now : String)
    (name : String) (args : Option (List (String × Json))) :
    (name ≠ "echo" → name ≠ "get_time" → name ≠ "get_env" → name ≠ "get_config" →
      handleCallTool env now name args =
        { content := [{ type := "text", text := "错误: " ++ ("未知工具: " ++ name) }],
          isError := true }) ∧
    (handleCallTool env now name args).content.map ContentItem.type = ["text"] := by
  refine ⟨fun h1 h2 h3 h4 => ?_, handleCallTool_content_types env now name args⟩
  unfold handleCallTool callToolBody
  simp [h1, h2, h3, h4]

/-- C1 witness: a concrete unknown-tool call is caught and produces the
error envelope. -/
theorem call_tool_error_boundary_witness :
    handleCallTool (fun _ => none) "" "bogus_tool" none =
      { content := [{ type := "text", text := "错误: " ++ ("未知工具: " ++ "bogus_tool") }],
        isError := true } :=
  (call_tool_error_boundary (fun _ => none) "" "bogus_tool" none).1
    (by decide) (by decide) (by decide) (by decide)

/-- C2: if `API_KEY` or `SERVER_NAME` is absent or empty (falsy), startup
exits with status 1 and the diagnostic lists a key exactly when it is a
required key whose value is falsy; if both are present and non-empty,
startup proceeds. -/
theorem startup_gate (env : String → Option String) :
    (truthy (env "API_KEY") = false ∨ truthy (env "SERVER_NAME") = false →
      validateEnvironment env = .exited 1 (missingVars env) ∧
        ∀ k, k ∈ missingVars env ↔ k ∈ REQUIRED_ENV_VARS ∧ truthy (env k) = false) ∧
    (truthy (env "API_KEY") = true → truthy (env "SERVER_NAME") = true →
      validateEnvironment env = .proceeded) := by
  have hmem : ∀ k, k ∈ missingVars env ↔ k ∈ REQUIRED_ENV_VARS ∧ truthy (env k) = false := by
    intro k
    simp [missingVars, List.mem_filter]
  constructor
  · intro h
    refine ⟨?_, hmem⟩
    unfold validateEnvironment
    rw [if_neg]
    simp only [List.isEmpty_iff]
    intro hempty
    rcases h with h | h
    · have : "API_KEY" ∈ missingVars env := (hmem "API_KEY").2 ⟨by decide, h⟩
      simp [hempty] at this
    · have : "SERVER_NAME" ∈ missingVars env := (hmem "SERVER_NAME").2 ⟨by decide, h⟩
      simp [hempty] at this
  · intro hA hS
    unfold validateEnvironment
    rw [if_pos]
    simp [missingVars, REQUIRED_ENV_VARS, hA, hS]

/-- C2 witness: with `SERVER_NAME=demo` and `API_KEY` absent, startup
exits with status 1 and the diagnostic lists `API_KEY` but not
`SERVER_NAME`. -/
theorem startup_gate_witness :
    validateEnvironment (fun k => if k = "SERVER_NAME" then some "demo" else none) =
      .exited 1 (missingVars (fun k => if k = "SERVER_NAME" then some "demo" else none)) ∧
    "API_KEY" ∈ missingVars (fun k => if k = "SERVER_NAME" then some "demo" else none) ∧
    "SERVER_NAME" ∉ missingVars (fun k => if k = "SERVER_NAME" then some "demo" else none) := by
  have h := (startup_gate (fun k => if k = "SERVER_NAME" then some "demo" else none)).1
    (Or.inl rfl)
  refine ⟨h.1, (h.2 "API_KEY").2 ⟨by decide, rfl⟩, fun hmem => ?_⟩
  have := ((h.2 "SERVER_NAME").1 hmem).2
  simp [truthy] at this

/-- C3: `list_tools` returns the registry verbatim, and the registry is
exactly the 4 descriptors named `echo`, `get_time`, `get_env`,
`get_config`, in that order; the handler reads no configuration, so the
response is configuration-independent. -/
theorem list_tools_fixed_registry :
    listToolsHandler = { tools := TOOLS } ∧
    TOOLS.map ToolDescriptor.name = ["echo", "get_time", "get_env", "get_config"] ∧
    TOOLS.length = 4 :=
  ⟨rfl, rfl, rfl⟩

/-- C4: `get_env` with a set key returns a success whose text is
`"{key} = {value}"` with the raw, unmasked value (for any key, sensitive
ones included); with an unset key it returns a success — `isError` stays
`false` — stating the variable is unset. -/
theorem get_env_raw_or_unset (env : String → Option String) (now k : String) :
    (∀ v, env k = some v →
      handleCallTool env now "get_env" (some [("key", Json.str k)]) =
        { content := [{ type := "text", text := k ++ " = " ++ v }], isError := false }) ∧
    (env k = none →
      handleCallTool env now "get_env" (some [("key", Json.str k)]) =
        { content := [{ type := "text", text := "环境变量 " ++ k ++ " 未设置" }],
          isError := false }) := by
  have harg : interpToString (argLookup (some [("key", Json.str k)]) "key") = k := rfl
  constructor
  · intro v hv
    unfold handleCallTool callToolBody
    simp [harg, hv]
  · intro hv
    unfold handleCallTool callToolBody
    simp [harg, hv]

/-- C4 witness: with `SERVER_NAME=demo`, looking up `SERVER_NAME` yields
the raw value and looking up an unset name yields a non-error unset
message. -/
theorem get_env_raw_or_unset_witness :
    handleCallTool (fun k => if k = "SERVER_NAME" then some "demo" else none) ""
        "get_env" (some [("key", Json.str "SERVER_NAME")]) =
      { content := [{ type := "text", text := "SERVER_NAME = demo" }], isError := false } ∧
    handleCallTool (fun k => if k = "SERVER_NAME" then some "demo" else none) ""
        "get_env" (some [("key", Json.str "NOPE_UNSET")]) =
      { content := [{ type := "text", text := "环境变量 NOPE_UNSET 未设置" }],
        isError := false } := by
  constructor
  · have h := (get_env_raw_or_unset
      (fun k => if k = "SERVER_NAME" then some "demo" else none) "" "SERVER_NAME").1
      "demo" rfl
    rw [h]; decide
  · have h := (get_env_raw_or_unset
      (fun k => if k = "SERVER_NAME" then some "demo" else none) "" "NOPE_UNSET").2
      rfl
    rw [h]; decide

/-- Evaluation of the dispatcher on a `get_config` request: the response
is the rendered snapshot of the current environment. -/
theorem handleCallTool_get_config (env : String → Option String) (now : String)
    (args : Option (List (String × Json))) :
    handleCallTool env now "get_config" args =
      { content := [{ type := "text", text := "服务器配置:\n" ++ stringifyConfig (mkConfig env) }],
        isError := false } :=
  rfl

/-- C5: the `get_config` response depends on `API_KEY` only through its
presence: any two environments agreeing everywhere except on the value of
`API_KEY`, both holding a present non-empty value, produce identical
`get_config` results, and the `apiKey` field is always the masked
indicator, never the raw value. -/
theorem get_config_apikey_noninterference (env₁ env₂ : String → Option String)
    (now : String) (args : Option (List (String × Json)))
    (hagree : ∀ k, k ≠ "API_KEY" → env₁ k = env₂ k)
    (h1 : truthy (env₁ "API_KEY") = true) (h2 : truthy (env₂ "API_KEY") = true) :
    handleCallTool env₁ now "get_config" args = handleCallTool env₂ now "get_config" args ∧
    (mkConfig env₁).apiKey = "已设置 (***隐藏)" := by
  have hS := hagree "SERVER_NAME" (by decide)
  have hN := hagree "NODE_ENV" (by decide)
  have hP := hagree "PORT" (by decide)
  have hC := hagree "CUSTOM_SETTING" (by decide)
  have hcfg : mkConfig env₁ = mkConfig env₂ := by
    simp [mkConfig, hS, hN, hP, hC, h1, h2]
  constructor
  · rw [handleCallTool_get_config, handleCallTool_get_config, hcfg]
  · simp [mkConfig, h1]

/-- C5 witness: two environments whose `API_KEY` values are different
non-empty secrets produce the same `get_config` result. -/
theorem get_config_apikey_noninterference_witness :
    handleCallTool (fun k => if k = "API_KEY" then some "secret-one" else none) ""
        "get_config" none =
      handleCallTool (fun k => if k = "API_KEY" then some "secret-two" else none) ""
        "get_config" none :=
  (get_config_apikey_noninterference
    (fun k => if k = "API_KEY" then some "secret-one" else none)
    (fun k => if k = "API_KEY" then some "secret-two" else none)
    "" none (fun k hk => by simp [hk]) rfl rfl).1

/-- C6: in the `get_config` snapshot — rendered by the handler into the
response text — each field defaults as soon as its own environment
variable is absent, independently of the other variables: `serverName`,
`port`, `apiKey`, `customSetting` default to the sentinel `"未设置"`, and
`environment` defaults to `"development"`. -/
theorem get_config_defaults (env : String → Option String) (now : String) :
    handleCallTool env now "get_config" none =
      { content := [{ type := "text", text := "服务器配置:\n" ++ stringifyConfig (mkConfig env) }],
        isError := false } ∧
    (env "SERVER_NAME" = none → (mkConfig env).serverName = "未设置") ∧
    (env "NODE_ENV" = none → (mkConfig env).environment = "development") ∧
    (env "PORT" = none → (mkConfig env).port = "未设置") ∧
    (env "API_KEY" = none → (mkConfig env).apiKey = "未设置") ∧
    (env "CUSTOM_SETTING" = none → (mkConfig env).customSetting = "未设置") := by
  refine ⟨handleCallTool_get_config env now none, ?_, ?_, ?_, ?_, ?_⟩ <;> intro h <;>
    simp [mkConfig, orDefault, truthy, h]

/-- C6 witness: with `SERVER_NAME=demo` and nothing else set, `port` and
`environment` take their defaults even though another variable is set;
on the empty environment `serverName`, `apiKey` and `customSetting`
default as well. -/
theorem get_config_defaults_witness :
    (mkConfig (fun k => if k = "SERVER_NAME" then some "demo" else none)).port = "未设置" ∧
    (mkConfig (fun k => if k = "SERVER_NAME" then some "demo" else none)).environment =
      "development" ∧
    (mkConfig (fun _ => none)).serverName = "未设置" ∧
    (mkConfig (fun _ => none)).apiKey = "未设置" ∧
    (mkConfig (fun _ => none)).customSetting = "未设置" := by
  have h1 := get_config_defaults (fun k => if k = "SERVER_NAME" then some "demo" else none) ""
  have h2 := get_config_defaults (fun _ => none) ""
  exact ⟨h1.2.2.2.1 rfl, h1.2.2.1 rfl, h2.2.1 rfl, h2.2.2.2.2.1 rfl, h2.2.2.2.2.2 rfl⟩

/-- C7: `echo` with a string message returns a success whose single text
item is the fixed prefix `"回显: "` followed by the message, for every
call alike. -/
theorem echo_prefixed (env : String → Option String) (now m : String) :
    handleCallTool env now "echo" (some [("message", Json.str m)]) =
      { content := [{ type := "text", text := "回显: " ++ m }], isError := false } :=
  rfl

/-- C8: with a required argument absent, the handlers silently proceed
with a success result embedding the `undefined` placeholder: `echo`
without `message` echoes `undefined`, and `get_env` without `key` looks
up the literal name `undefined` (here assumed unset) and reports it
unset; neither produces a validation error. -/
theorem missing_args_silent (env : String → Option String) (now : String)
    (hu : env "undefined" = none) :
    handleCallTool env now "echo" (some []) =
      { content := [{ type := "text", text := "回显: " ++ "undefined" }], isError := false } ∧
    handleCallTool env now "get_env" (some []) =
      { content := [{ type := "text", text := "环境变量 " ++ "undefined" ++ " 未设置" }],
        isError := false } := by
  constructor
  · rfl
  · unfold handleCallTool callToolBody
    simp [argLookup, interpToString, hu]

/-- C8 witness: the empty environment exercises both missing-argument
behaviours. -/
theorem missing_args_silent_witness :
    handleCallTool (fun _ => none) "" "echo" (some []) =
      { content := [{ type := "text", text := "回显: undefined" }], isError := false } ∧
    handleCallTool (fun _ => none) "" "get_env" (some []) =
      { content := [{ type := "text", text := "环境变量 undefined 未设置" }],
        isError := false } := by
  have h := missing_args_silent (fun _ => none) "" rfl
  exact ⟨h.1.trans (by decide), h.2.trans (by decide)⟩

/-- C9: with the environment fixed, the dispatcher is a deterministic
function of the request — for every tool other than `get_time` the
response does not depend on the clock, so identical requests repeat
byte-identically — while a `get_time` response is the fixed prefix
followed by the timestamp, so repetitions vary only in the timestamp
field. -/
theorem call_tool_deterministic (env : String → Option String)
    (name : String) (args : Option (List (String × Json))) (now₁ now₂ : String) :
    (name ≠ "get_time" →
      handleCallTool env now₁ name args = handleCallTool env now₂ name args) ∧
    (∀ now, handleCallTool env now "get_time" args =
      { content := [{ type := "text", text := "当前时间: " ++ now }], isError := false }) := by
  constructor
  · intro h
    unfold handleCallTool callToolBody
    split_ifs <;> rfl
  · intro now
    rfl

/-- C9 witness: an `echo` call repeated at two different clock readings
gives the same response, and `get_time` responses at those readings
differ only in the timestamp suffix. -/
theorem call_tool_deterministic_witness :
    handleCallTool (fun _ => none) "t1" "echo" none =
      handleCallTool (fun _ => none) "t2" "echo" none ∧
    handleCallTool (fun _ => none) "t1" "get_time" none =
      { content := [{ type := "text", text := "当前时间: " ++ "t1" }], isError := false } := by
  have h := call_tool_deterministic (fun _ => none) "echo" none "t1" "t2"
  exact ⟨h.1 (by decide), h.2 "t1"⟩

/-- C10: every `call_tool` request naming one of the four registered
tools succeeds: the `try` body returns normally (never throws), so the
catch branch is reachable only for unknown names, and the response is a
success — `isError` false — with exactly one content item of type
`"text"`. -/
theorem known_tools_succeed (env : String → Option String) (now : String)
    (name : String) (args : Option (List (String × Json)))
    (h : name = "echo" ∨ name = "get_time" ∨ name = "get_env" ∨ name = "get_config") :
    ∃ r, callToolBody env now name args = Except.ok r ∧
      handleCallTool env now name args = r ∧
      r.isError = false ∧ r.content.map ContentItem.type = ["text"] := by
  rcases h with h | h | h | h <;> subst h
  · exact ⟨_, rfl, rfl, rfl, rfl⟩
  · exact ⟨_, rfl, rfl, rfl, rfl⟩
  · rcases henv : env (interpToString (argLookup args "key")) with _ | v
    · have hbody : callToolBody env now "get_env" args =
          Except.ok { content := [{ type := "text", text := "环境变量 " ++ interpToString (argLookup args "key") ++ " 未设置" }], isError := false } := by
        unfold callToolBody
        simp [henv]
      refine ⟨_, hbody, ?_, rfl, rfl⟩
      unfold handleCallTool
      rw [hbody]
    · have hbody : callToolBody env now "get_env" args =
          Except.ok { content := [{ type := "text", text := interpToString (argLookup args "key") ++ " = " ++ v }], isError := false } := by
        unfold callToolBody
        simp [henv]
      refine ⟨_, hbody, ?_, rfl, rfl⟩
      unfold handleCallTool
      rw [hbody]
  · exact ⟨_, rfl, rfl, rfl, rfl⟩

/-- C10 witness: a concrete in-registry call (`echo` on the empty
environment) goes through the no-throw path and succeeds. -/
theorem known_tools_succeed_witness :
    (handleCallTool (fun _ => none) "" "echo" none).isError = false ∧
    (handleCallTool (fun _ => none) "" "echo" none).content.map ContentItem.type = ["text"] := by
  obtain ⟨r, hbody, hres, herr, htype⟩ :=
    known_tools_succeed (fun _ => none) "" "echo" none (Or.inl rfl)
  rw [hres]
  exact ⟨herr, htype⟩
